import Mathlib

/-!
Verification of the MELCloud homebridge platform launch logic (src/index.js).

The `didFinishLaunching` handler loops over configured accounts. For each
account it validates mandatory fields, rejects duplicate names, optionally
logs a redacted debug copy of the configuration, connects to the cloud,
fetches the device list, starts the impulse generator with a
`checkDevicesList` timer, and dispatches the configured ATA / ATW / ERV
devices to type-specific controllers.

The embedding below turns that handler into a pure function producing an
event trace.  JavaScript string truthiness is modelled by using `""` for an
absent/falsy string field; an absent numeric field is `Option.none`.  Cloud
calls and controller starts are modelled by an environment record `CloudEnv`
supplying their results, keyed by the account name (names that reach the
cloud are unique, since duplicates are rejected first).
-/

namespace MelCloudControl

/-- Device types dispatched by the handler: Air Conditioner (ATA),
Heat Pump (ATW), Energy Recovery Ventilation (ERV). -/
inductive DevType where
  | ata
  | atw
  | erv
deriving DecidableEq, Repr

/-- A device entry in the per-account configuration
(`{id, name, typeString, displayMode}`).  `displayMode` is `none` when the
field is absent; in JavaScript `undefined > 0` is `false`. -/
structure DeviceConfig where
  id : Nat
  name : String
  typeString : String
  displayMode : Option Int
deriving DecidableEq, Repr

/-- The `mqtt` sub-object of an account configuration.  Only its `passwd`
field is treated specially by the handler (redacted in the debug dump); a
second field stands for the rest of the spread-copied object. -/
structure MqttConfig where
  user : String
  passwd : String
deriving DecidableEq, Repr

/-- One account object of `config.accounts`.  String fields use `""` for an
absent value (both `undefined` and `""` are falsy in the `!accountName`
style checks of line 39).  `refreshInterval` and `deviceRefreshInterval`
are in seconds, `none` when unset. -/
structure AccountConfig where
  name : String
  user : String
  passwd : String
  language : String
  enableDebugMode : Bool
  refreshInterval : Option Int
  deviceRefreshInterval : Option Int
  mqtt : MqttConfig
  ataDevices : List DeviceConfig
  atwDevices : List DeviceConfig
  ervDevices : List DeviceConfig
deriving DecidableEq, Repr

/-- A device as reported by the cloud (`devices.some(dev => dev.DeviceID === deviceId)`
only inspects `DeviceID`). -/
structure CloudDevice where
  DeviceID : Nat
deriving DecidableEq, Repr

/-- Result of a successful `melCloud.connect()`:
`{accountInfo, contextKey, useFahrenheit}`; `accountInfo` is opaque to the
handler and omitted. -/
structure ConnectResponse where
  contextKey : Nat
  useFahrenheit : Bool
deriving DecidableEq, Repr

/-- Errors thrown by the cloud collaborator. -/
inductive CloudErr where
  | auth
  | network
deriving DecidableEq, Repr

/-- Environment supplying the results of the external collaborators:
`connect` and `chackDevicesList` per account name, and whether the
controller constructor plus `start()` of a given device succeeds
(`startOk t accountName deviceId = false` models a throw during
construction or `await start()`). -/
structure CloudEnv where
  connect : String → Except CloudErr ConnectResponse
  listDevices : String → Except CloudErr (List CloudDevice)
  startOk : DevType → String → Nat → Bool

/-- Observable events of one handler run, in emission order. -/
inductive Event where
  /-- line 40: `log.warn(...in config missing.)` -/
  | warnMissingFields (name : String)
  /-- line 46: `log.warn('Account name: ..., must be unique.')` -/
  | warnDuplicate (name : String)
  /-- line 53: `log.info('Account ..., did finish launching.')` (debug mode) -/
  | debugLaunch (name : String)
  /-- line 64: `log.info('Account ..., Config: ...')` with the redacted data -/
  | debugConfig (name : String) (data : AccountConfig)
  /-- line 95: `await melCloud.connect()` returned -/
  | connectOk (name : String)
  /-- line 101: `await melCloud.chackDevicesList(contextKey)` returned -/
  | devicesListOk (name : String)
  /-- line 105: `melCloud.impulseGenerator.start(timers)` -/
  | schedulerStart (name : String) (timerName : String) (samplingMs : Int)
  /-- lines 120/146 (and ATW/ERV analogues): controller constructed and
  `await ...start()` completed; carries the `deviceRefreshInterval` passed
  to the constructor -/
  | deviceStart (t : DevType) (name : String) (id : Nat) (deviceRefreshMs : Int)
  /-- lines 149/194/239: `log.error('Account ..., ATA did finish launching error')` -/
  | typeLoopError (t : DevType) (name : String)
  /-- line 242: `log.error('Account ..., did finish launching error')` -/
  | accountError (name : String)
deriving DecidableEq, Repr

/-- Line 39: `!accountName || !user || !passwd || !language`. -/
def missingMandatory (a : AccountConfig) : Bool :=
  a.name == "" || a.user == "" || a.passwd == "" || a.language == ""

/-- Lines 56-63: `{...account, passwd: 'removed', mqtt: {...account.mqtt, passwd: 'removed'}}`. -/
def debugData (a : AccountConfig) : AccountConfig :=
  { a with passwd := "removed", mqtt := { a.mqtt with passwd := "removed" } }

/-- Lines 52-64: the two `log.info` calls made when `enableDebugMode` is set. -/
def debugEvents (a : AccountConfig) : List Event :=
  if a.enableDebugMode then
    [Event.debugLaunch a.name, Event.debugConfig a.name (debugData a)]
  else []

/-- Lines 72-73: `account.refreshInterval * 1000 || 120000` (and the 5000
analogue).  `undefined * 1000` is `NaN` (falsy) and `0 * 1000` is `0`
(falsy), so the default applies exactly when the field is unset or the
product is zero; any other product, negative included, is kept. -/
def toMs (v : Option Int) (dflt : Int) : Int :=
  match v with
  | none => dflt
  | some s => if s * 1000 == 0 then dflt else s * 1000

/-- Line 112: `device.displayMode > 0 ?? false` — the `?? false` is inert
since a boolean is never nullish; `undefined > 0` is `false`. -/
def displayEnabled (d : DeviceConfig) : Bool :=
  match d.displayMode with
  | none => false
  | some v => decide (0 < v)

/-- One per-type dispatch loop with its surrounding `try/catch`
(lines 108-150 for ATA; ATW and ERV are identical).  A device whose id is
absent from the cloud list or whose `displayMode` is not positive is
skipped (`continue`).  Otherwise the controller is constructed and started;
a throw propagates to the catch that wraps the WHOLE loop, which logs one
type-level error — the remaining devices of this type are not reached. -/
def dispatchType (env : CloudEnv) (t : DevType) (accName : String)
    (devices : List CloudDevice) (dri : Int) : List DeviceConfig → List Event
  | [] => []
  | d :: rest =>
    let present := devices.any (fun dev => dev.DeviceID == d.id)
    if !present || !displayEnabled d then
      dispatchType env t accName devices dri rest
    else if env.startOk t accName d.id then
      Event.deviceStart t accName d.id dri :: dispatchType env t accName devices dri rest
    else
      [Event.typeLoopError t accName]

/-- The body of the account loop (lines 32-243) for one account.  Returns
the emitted events, the updated `accountsName` list, and whether the
handler returned (the `return` statements at lines 41 and 47 exit the whole
async handler, not just this iteration).  A throw from `connect` or
`chackDevicesList` is caught by the account-level catch (line 241), which
logs and lets the loop continue with the next account. -/
def processAccount (env : CloudEnv) (names : List String) (a : AccountConfig) :
    List Event × List String × Bool :=
  if missingMandatory a then
    ([Event.warnMissingFields a.name], names, true)
  else if names.contains a.name then
    ([Event.warnDuplicate a.name], names, true)
  else
    let names' := names ++ [a.name]
    let dbg := debugEvents a
    let refreshMs := toMs a.refreshInterval 120000
    let deviceRefreshMs := toMs a.deviceRefreshInterval 5000
    match env.connect a.name with
    | Except.error _ => (dbg ++ [Event.accountError a.name], names', false)
    | Except.ok _resp =>
      match env.listDevices a.name with
      | Except.error _ =>
        (dbg ++ [Event.connectOk a.name, Event.accountError a.name], names', false)
      | Except.ok devices =>
        (dbg ++ [Event.connectOk a.name, Event.devicesListOk a.name,
            Event.schedulerStart a.name "checkDevicesList" refreshMs]
          ++ dispatchType env DevType.ata a.name devices deviceRefreshMs a.ataDevices
          ++ dispatchType env DevType.atw a.name devices deviceRefreshMs a.atwDevices
          ++ dispatchType env DevType.erv a.name devices deviceRefreshMs a.ervDevices,
         names', false)

/-- The account loop over a list of accounts, threading the `accountsName`
accumulator; a `true` halt flag from `processAccount` terminates the whole
run (the handler returned). -/
def runList (env : CloudEnv) (names : List String) :
    List AccountConfig → List Event × List String × Bool
  | [] => ([], names, false)
  | a :: rest =>
    let r := processAccount env names a
    if r.2.2 then (r.1, r.2.1, true)
    else
      let r2 := runList env r.2.1 rest
      (r.1 ++ r2.1, r2.2.1, r2.2.2)

/-- The full `didFinishLaunching` handler: the account loop started with an
empty `accountsName` list. -/
def runHandler (env : CloudEnv) (accounts : List AccountConfig) : List Event :=
  (runList env [] accounts).1

/-- The controllers constructed and started during a run: type, account
name and device id of every `deviceStart` event. -/
def startedDevices : List Event → List (DevType × String × Nat)
  | [] => []
  | Event.deviceStart t n i _ :: rest => (t, n, i) :: startedDevices rest
  | _ :: rest => startedDevices rest

/-- The redacted configuration payloads written to the debug log during a
run (the line-64 `log.info` events). -/
def debugConfigs : List Event → List (String × AccountConfig)
  | [] => []
  | Event.debugConfig n d :: rest => (n, d) :: debugConfigs rest
  | _ :: rest => debugConfigs rest

/-- The device type a trace event belongs to, when it is an event of one of
the three per-type dispatch loops. -/
def eventDevType : Event → Option DevType
  | Event.deviceStart t _ _ _ => some t
  | Event.typeLoopError t _ => some t
  | _ => none

/-- Post-startup state of one account: the registry's stored device-list
snapshot and the set of started controllers. -/
structure AccountState where
  registry : List CloudDevice
  started : List (DevType × String × Nat)
deriving DecidableEq, Repr

/-- Modelled from the spec: the `checkDevicesList` timer tick re-runs
`DeviceRegistry.refresh`, replacing the stored snapshot wholesale on
success and retaining the previous snapshot on failure; it does not
re-dispatch devices.  (The tick callback lives in `src/melcloud.js`, which
is not part of the sources; only `impulseGenerator.start(timers)` at
line 105 is.) -/
def refreshTick (result : Except CloudErr (List CloudDevice)) (s : AccountState) :
    AccountState :=
  match result with
  | Except.ok devs => { s with registry := devs }
  | Except.error _ => s

/-- Apply a sequence of refresh-tick results to an account state. -/
def applyTicks (s : AccountState) : List (Except CloudErr (List CloudDevice)) → AccountState
  | [] => s
  | r :: rs => applyTicks (refreshTick r s) rs

/-- The state of an account right after its startup ran: the registry
holds the initial discovery snapshot and the started controllers are
exactly those dispatched by the startup trace. -/
def postStartupState (env : CloudEnv) (a : AccountConfig) : AccountState :=
  { registry :=
      match env.listDevices a.name with
      | Except.ok devs => devs
      | Except.error _ => []
    started := startedDevices (processAccount env [] a).1 }

/-! ### Concrete fixtures used in counterexamples and witnesses -/

/-- An environment where every cloud call succeeds, the cloud reports
devices `1` and `2` for every account, and every controller start
succeeds. -/
def envOK : CloudEnv :=
  { connect := fun _ => Except.ok { contextKey := 7, useFahrenheit := false }
    listDevices := fun _ => Except.ok [{ DeviceID := 1 }, { DeviceID := 2 }]
    startOk := fun _ _ _ => true }

/-- Like `envOK`, but the controller of device `1` throws on start. -/
def envFail1 : CloudEnv :=
  { connect := fun _ => Except.ok { contextKey := 7, useFahrenheit := false }
    listDevices := fun _ => Except.ok [{ DeviceID := 1 }, { DeviceID := 2 }]
    startOk := fun _ _ i => i != 1 }

/-- Like `envOK`, but `connect` throws an auth error for account "A". -/
def envAFails : CloudEnv :=
  { connect := fun n =>
      if n == "A" then Except.error CloudErr.auth
      else Except.ok { contextKey := 7, useFahrenheit := false }
    listDevices := fun _ => Except.ok [{ DeviceID := 1 }, { DeviceID := 2 }]
    startOk := fun _ _ _ => true }

/-- A configured device that is present on the cloud and enabled. -/
def dev1 : DeviceConfig := { id := 1, name := "d1", typeString := "AC", displayMode := some 1 }

/-- A second present-and-enabled configured device. -/
def dev2 : DeviceConfig := { id := 2, name := "d2", typeString := "AC", displayMode := some 1 }

/-- A configured device disabled by `displayMode = 0`. -/
def devDisabled : DeviceConfig :=
  { id := 2, name := "d2off", typeString := "AC", displayMode := some 0 }

/-- A configured device absent from the cloud device list. -/
def devAbsent : DeviceConfig :=
  { id := 9, name := "ghost", typeString := "AC", displayMode := some 1 }

/-- An mqtt sub-configuration with a secret of its own. -/
def baseMqtt : MqttConfig := { user := "mq", passwd := "mqsecret" }

/-- A fully valid account named "A" with one ATA device. -/
def acctA : AccountConfig :=
  { name := "A", user := "u", passwd := "p", language := "en",
    enableDebugMode := false, refreshInterval := none, deviceRefreshInterval := none,
    mqtt := baseMqtt, ataDevices := [dev1], atwDevices := [], ervDevices := [] }

/-- A fully valid account named "B" with one ATA device. -/
def acctB : AccountConfig := { acctA with name := "B" }

/-- Account "A" with two ATA devices. -/
def acctTwoAta : AccountConfig := { acctA with ataDevices := [dev1, dev2] }

/-- Account "A" with a negative configured refresh interval. -/
def acctNeg : AccountConfig := { acctA with refreshInterval := some (-1) }

/-- Account "A" with debug mode enabled. -/
def acctDbg : AccountConfig := { acctA with enableDebugMode := true }

/-- Account "A" with devices in all three type lists. -/
def acctMulti : AccountConfig :=
  { acctA with ataDevices := [dev1], atwDevices := [dev2], ervDevices := [devAbsent] }

/-! ### Helper lemmas about the dispatch loop and the account loop -/

/-- Unfolding equation for `dispatchType` on a cons cell. -/
lemma dispatchType_cons (env : CloudEnv) (t : DevType) (n : String)
    (devs : List CloudDevice) (dri : Int) (d : DeviceConfig) (rest : List DeviceConfig) :
    dispatchType env t n devs dri (d :: rest) =
      if !(devs.any fun dev => dev.DeviceID == d.id) || !displayEnabled d then
        dispatchType env t n devs dri rest
      else if env.startOk t n d.id then
        Event.deviceStart t n d.id dri :: dispatchType env t n devs dri rest
      else [Event.typeLoopError t n] := rfl

/-- When every controller start in the list succeeds, the dispatch loop
starts exactly the configured devices that are present in the cloud list
and have a positive `displayMode`, in configuration order, and raises no
error. -/
lemma dispatchType_all_ok (env : CloudEnv) (t : DevType) (n : String)
    (devs : List CloudDevice) (dri : Int) (ds : List DeviceConfig)
    (hok : ∀ d ∈ ds, env.startOk t n d.id = true) :
    dispatchType env t n devs dri ds =
      (ds.filter fun d => (devs.any fun c => c.DeviceID == d.id) && displayEnabled d).map
        fun d => Event.deviceStart t n d.id dri := by
  induction ds with
  | nil => rfl
  | cons d rest ih =>
    have hd : env.startOk t n d.id = true := hok d (List.mem_cons_self d rest)
    have hrest : ∀ d' ∈ rest, env.startOk t n d'.id = true := fun d' h =>
      hok d' (List.mem_cons_of_mem d h)
    rw [dispatchType_cons, hd, List.filter_cons]
    by_cases hp : (devs.any fun c => c.DeviceID == d.id) = true
    · by_cases he : displayEnabled d = true
      · simp [hp, he, ih hrest]
      · simp [hp, he, ih hrest]
    · simp [hp, ih hrest]

/-- Every event emitted by one per-type dispatch loop is stamped with that
loop's device type. -/
lemma eventDevType_dispatchType (env : CloudEnv) (t : DevType) (n : String)
    (devs : List CloudDevice) (dri : Int) (ds : List DeviceConfig) :
    ∀ e ∈ dispatchType env t n devs dri ds, eventDevType e = some t := by
  induction ds with
  | nil => intro e he; simp [dispatchType] at he
  | cons d rest ih =>
    intro e he
    rw [dispatchType_cons] at he
    by_cases hg : (!(devs.any fun dev => dev.DeviceID == d.id) || !displayEnabled d) = true
    · rw [if_pos hg] at he; exact ih e he
    · rw [if_neg hg] at he
      by_cases hs : env.startOk t n d.id = true
      · rw [if_pos hs] at he
        rcases List.mem_cons.mp he with h | h
        · subst h; rfl
        · exact ih e h
      · rw [if_neg hs] at he
        rcases List.mem_cons.mp he with h | h
        · subst h; rfl
        · simp at h

/-- A `deviceStart` event found in a per-type dispatch loop carries that
loop's type, account name and `deviceRefreshInterval`. -/
lemma deviceStart_mem_dispatchType (env : CloudEnv) (t t' : DevType) (n n' : String)
    (devs : List CloudDevice) (dri dri' : Int) (i : Nat) (ds : List DeviceConfig)
    (h : Event.deviceStart t' n' i dri' ∈ dispatchType env t n devs dri ds) :
    t' = t ∧ n' = n ∧ dri' = dri := by
  induction ds with
  | nil => simp [dispatchType] at h
  | cons d rest ih =>
    rw [dispatchType_cons] at h
    by_cases hg : (!(devs.any fun dev => dev.DeviceID == d.id) || !displayEnabled d) = true
    · rw [if_pos hg] at h; exact ih h
    · rw [if_neg hg] at h
      by_cases hs : env.startOk t n d.id = true
      · rw [if_pos hs] at h
        rcases List.mem_cons.mp h with h | h
        · injection h with h1 h2 h3 h4
          exact ⟨h1, h2, h4⟩
        · exact ih h
      · rw [if_neg hs] at h
        rcases List.mem_cons.mp h with h | h
        · exact absurd h (by simp)
        · simp at h

/-- The ids started by one per-type dispatch loop form a subsequence of the
configured ids of that type: devices start in configuration order. -/
lemma startedDevices_dispatchType_sublist (env : CloudEnv) (t : DevType) (n : String)
    (devs : List CloudDevice) (dri : Int) (ds : List DeviceConfig) :
    List.Sublist
      ((startedDevices (dispatchType env t n devs dri ds)).map fun x => x.2.2)
      (ds.map fun d => d.id) := by
  induction ds with
  | nil => simp [dispatchType, startedDevices]
  | cons d rest ih =>
    rw [dispatchType_cons]
    by_cases hg : (!(devs.any fun dev => dev.DeviceID == d.id) || !displayEnabled d) = true
    · rw [if_pos hg]
      exact List.Sublist.cons d.id ih
    · rw [if_neg hg]
      by_cases hs : env.startOk t n d.id = true
      · rw [if_pos hs]
        simpa [startedDevices] using List.Sublist.cons₂ d.id ih
      · rw [if_neg hs]
        simp [startedDevices]

/-- If the loop reaches a device that passes both guards but whose
controller construction or start throws, the loop emits the events of the
earlier devices, then the single type-level error, and nothing for the
remaining devices (the `catch` is outside the `for`). -/
lemma dispatchType_abort (env : CloudEnv) (t : DevType) (n : String)
    (devs : List CloudDevice) (dri : Int) (pre post : List DeviceConfig) (d : DeviceConfig)
    (hok : ∀ d' ∈ pre, env.startOk t n d'.id = true)
    (hpres : (devs.any fun c => c.DeviceID == d.id) = true)
    (hen : displayEnabled d = true)
    (hfail : env.startOk t n d.id = false) :
    dispatchType env t n devs dri (pre ++ d :: post) =
      dispatchType env t n devs dri pre ++ [Event.typeLoopError t n] := by
  induction pre with
  | nil =>
    simp only [List.nil_append, dispatchType_cons, hpres, hen, hfail]
    simp [dispatchType]
  | cons p rest ih =>
    have hp : env.startOk t n p.id = true := hok p (List.mem_cons_self p rest)
    have hrest : ∀ d' ∈ rest, env.startOk t n d'.id = true := fun d' h =>
      hok d' (List.mem_cons_of_mem p h)
    rw [List.cons_append, dispatchType_cons, dispatchType_cons, hp]
    by_cases hg : (!(devs.any fun dev => dev.DeviceID == p.id) || !displayEnabled p) = true
    · rw [if_pos hg, if_pos hg, ih hrest]
    · rw [if_neg hg, if_neg hg, if_pos rfl, if_pos rfl, ih hrest]
      rfl

/-- Splitting the account loop at a list concatenation: the second part
runs only when the first did not make the handler return. -/
lemma runList_append (env : CloudEnv) (names : List String)
    (xs ys : List AccountConfig) :
    runList env names (xs ++ ys) =
      (if (runList env names xs).2.2 then runList env names xs
       else
        ((runList env names xs).1 ++ (runList env (runList env names xs).2.1 ys).1,
          (runList env (runList env names xs).2.1 ys).2.1,
          (runList env (runList env names xs).2.1 ys).2.2)) := by
  induction xs generalizing names with
  | nil => simp [runList]
  | cons a rest ih =>
    simp only [List.cons_append, runList]
    by_cases h : (processAccount env names a).2.2 = true
    · simp [h]
    · simp only [h, if_false, Bool.false_eq_true, List.append_eq]
      rw [ih (processAccount env names a).2.1]
      by_cases h2 : (runList env (processAccount env names a).2.1 rest).2.2 = true
      · simp [h2]
      · simp [h2, List.append_assoc]

/-- `startedDevices` distributes over trace concatenation. -/
lemma startedDevices_append (xs ys : List Event) :
    startedDevices (xs ++ ys) = startedDevices xs ++ startedDevices ys := by
  induction xs with
  | nil => rfl
  | cons e rest ih =>
    cases e <;> simp [startedDevices, ih]

/-- `debugConfigs` distributes over trace concatenation. -/
lemma debugConfigs_append (xs ys : List Event) :
    debugConfigs (xs ++ ys) = debugConfigs xs ++ debugConfigs ys := by
  induction xs with
  | nil => rfl
  | cons e rest ih =>
    cases e <;> simp [debugConfigs, ih]

/-- A dispatch loop never writes to the debug-config log. -/
lemma debugConfigs_dispatchType (env : CloudEnv) (t : DevType) (n : String)
    (devs : List CloudDevice) (dri : Int) (ds : List DeviceConfig) :
    debugConfigs (dispatchType env t n devs dri ds) = [] := by
  induction ds with
  | nil => rfl
  | cons d rest ih =>
    rw [dispatchType_cons]
    by_cases hg : (!(devs.any fun dev => dev.DeviceID == d.id) || !displayEnabled d) = true
    · rw [if_pos hg]; exact ih
    · rw [if_neg hg]
      by_cases hs : env.startOk t n d.id = true
      · rw [if_pos hs]; simpa [debugConfigs] using ih
      · rw [if_neg hs]; rfl

/-- The debug events of an account start no controller. -/
lemma startedDevices_debugEvents (a : AccountConfig) :
    startedDevices (debugEvents a) = [] := by
  cases h : a.enableDebugMode <;> simp [debugEvents, h, startedDevices]

/-- The redacted payloads an account run writes to the debug log: exactly
one (the redaction of its configuration) when the account passes
validation and has debug mode on, none otherwise. -/
lemma debugConfigs_debugEvents (a : AccountConfig) :
    debugConfigs (debugEvents a) =
      if a.enableDebugMode then [(a.name, debugData a)] else [] := by
  cases h : a.enableDebugMode <;> simp [debugEvents, h, debugConfigs]

lemma debugConfigs_processAccount (env : CloudEnv) (names : List String)
    (a : AccountConfig) :
    debugConfigs (processAccount env names a).1 =
      if missingMandatory a then []
      else if names.contains a.name then []
      else if a.enableDebugMode then [(a.name, debugData a)] else [] := by
  by_cases h1 : missingMandatory a = true
  · simp [processAccount, h1, debugConfigs]
  · by_cases h2 : names.contains a.name = true
    · have h2' : a.name ∈ names := by simpa using h2
      simp [processAccount, h1, h2', debugConfigs]
    · have h2' : a.name ∉ names := by simpa using h2
      simp only [processAccount, h1, h2, Bool.false_eq_true, if_false]
      cases hc : env.connect a.name with
      | error e =>
        simp [debugConfigs_append, debugConfigs_debugEvents, debugConfigs, h1, h2']
      | ok r =>
        cases hd : env.listDevices a.name with
        | error e =>
          simp [debugConfigs_append, debugConfigs_debugEvents, debugConfigs, h1, h2']
        | ok devs =>
          simp [debugConfigs_append, debugConfigs_debugEvents, debugConfigs_dispatchType,
            debugConfigs, h1, h2']

/-- An account that passes both validation checks appends its name to the
accumulator — before `connect` is even consulted — and never makes the
handler return. -/
lemma processAccount_valid_names (env : CloudEnv) (names : List String)
    (a : AccountConfig) (h1 : missingMandatory a = false)
    (h2 : names.contains a.name = false) :
    (processAccount env names a).2.1 = names ++ [a.name] ∧
      (processAccount env names a).2.2 = false := by
  simp only [processAccount, h1, h2, Bool.false_eq_true, if_false]
  cases hc : env.connect a.name with
  | error e => simp
  | ok r =>
    cases hd : env.listDevices a.name with
    | error e => simp
    | ok devs => simp

/-- Trace of an account whose validation passes and whose cloud calls both
succeed: debug events, then connect, discovery, scheduler start, then the
three dispatch loops in ATA, ATW, ERV order. -/
lemma processAccount_ok_trace (env : CloudEnv) (names : List String) (a : AccountConfig)
    (resp : ConnectResponse) (devs : List CloudDevice)
    (hval : missingMandatory a = false)
    (hdup : names.contains a.name = false)
    (hconn : env.connect a.name = Except.ok resp)
    (hdev : env.listDevices a.name = Except.ok devs) :
    (processAccount env names a).1 =
      debugEvents a ++
        [Event.connectOk a.name, Event.devicesListOk a.name,
          Event.schedulerStart a.name "checkDevicesList" (toMs a.refreshInterval 120000)] ++
        dispatchType env DevType.ata a.name devs (toMs a.deviceRefreshInterval 5000) a.ataDevices ++
        dispatchType env DevType.atw a.name devs (toMs a.deviceRefreshInterval 5000) a.atwDevices ++
        dispatchType env DevType.erv a.name devs (toMs a.deviceRefreshInterval 5000) a.ervDevices := by
  simp only [processAccount, hval, hdup, Bool.false_eq_true, if_false, hconn, hdev]

/-- Trace of an account whose validation passes but whose `connect`
throws: the account-level catch logs one error and nothing else happens. -/
lemma processAccount_connect_error (env : CloudEnv) (names : List String)
    (a : AccountConfig) (e : CloudErr)
    (hval : missingMandatory a = false)
    (hdup : names.contains a.name = false)
    (hconn : env.connect a.name = Except.error e) :
    (processAccount env names a).1 = debugEvents a ++ [Event.accountError a.name] := by
  simp only [processAccount, hval, hdup, Bool.false_eq_true, if_false, hconn]

/-- Trace of an account whose `connect` succeeds but whose initial device
list discovery throws. -/
lemma processAccount_list_error (env : CloudEnv) (names : List String)
    (a : AccountConfig) (resp : ConnectResponse) (e : CloudErr)
    (hval : missingMandatory a = false)
    (hdup : names.contains a.name = false)
    (hconn : env.connect a.name = Except.ok resp)
    (hdev : env.listDevices a.name = Except.error e) :
    (processAccount env names a).1 =
      debugEvents a ++ [Event.connectOk a.name, Event.accountError a.name] := by
  simp only [processAccount, hval, hdup, Bool.false_eq_true, if_false, hconn, hdev]

/-- An account whose validation fails warns and makes the handler return,
leaving the name accumulator untouched. -/
lemma processAccount_missing (env : CloudEnv) (names : List String) (a : AccountConfig)
    (hmiss : missingMandatory a = true) :
    processAccount env names a = ([Event.warnMissingFields a.name], names, true) := by
  simp [processAccount, hmiss]

/-- An account whose name is already taken warns and makes the handler
return, leaving the name accumulator untouched. -/
lemma processAccount_duplicate (env : CloudEnv) (names : List String) (a : AccountConfig)
    (hval : missingMandatory a = false)
    (hdup : names.contains a.name = true) :
    processAccount env names a = ([Event.warnDuplicate a.name], names, true) := by
  have hdup' : a.name ∈ names := by simpa using hdup
  simp [processAccount, hval, hdup']

/-- `toMs` written with the default case spelled out: the default applies
exactly when the configured value is unset or zero. -/
lemma toMs_eq (v : Option Int) (dflt : Int) :
    toMs v dflt =
      match v with
      | none => dflt
      | some s => if s = 0 then dflt else s * 1000 := by
  cases v with
  | none => rfl
  | some s =>
    by_cases h : s = 0
    · simp [toMs, h]
    · have hne : s * 1000 ≠ 0 := by
        intro hc
        rcases Int.mul_eq_zero.mp hc with h1 | h1
        · exact h h1
        · norm_num at h1
      simp [toMs, hne, h]

/-- Refresh ticks never change the set of started controllers. -/
lemma applyTicks_started (ticks : List (Except CloudErr (List CloudDevice)))
    (s : AccountState) : (applyTicks s ticks).started = s.started := by
  induction ticks generalizing s with
  | nil => rfl
  | cons r rs ih =>
    cases r with
    | ok devs => simpa [applyTicks, refreshTick] using ih _
    | error e => simpa [applyTicks, refreshTick] using ih _

/-! ### Claim theorems -/

/-- C1 (counterexample): with a first account missing its `user` and a
second fully valid account named "B", the handler never connects account
"B" — although "B" connects when it is the only account — because the
`return` at line 41 exits the whole `didFinishLaunching` handler, not just
the failing account's iteration. -/
theorem c1_counterexample :
    Event.connectOk "B" ∉
        runHandler envOK [{ acctA with user := "" }, { acctA with name := "B" }] ∧
      Event.connectOk "B" ∈ runHandler envOK [{ acctA with name := "B" }] :=
  ⟨by decide, by decide⟩

/-- C1 (amended): an account with a missing mandatory field halts with the
missing-fields warning before any cloud call and dispatches no devices;
accounts processed before it are unaffected (their events are exactly those
of running them alone), but the `return` terminates the handler, so no
account configured after it is started. -/
theorem c1_missing_field_halts (env : CloudEnv) (pre : List AccountConfig)
    (a : AccountConfig) (post : List AccountConfig)
    (hmiss : missingMandatory a = true)
    (hpre : (runList env [] pre).2.2 = false) :
    runHandler env (pre ++ a :: post) =
      (runList env [] pre).1 ++ [Event.warnMissingFields a.name] := by
  unfold runHandler
  rw [runList_append]
  simp only [hpre, Bool.false_eq_true, if_false]
  simp [runList, processAccount_missing env _ a hmiss]

/-- C1 (witness): a valid account "A", then an account "B" missing its
`user`, then a valid account "C". -/
theorem c1_witness :
    runHandler envOK [acctA, { acctA with name := "B", user := "" }, { acctA with name := "C" }] =
      (runList envOK [] [acctA]).1 ++ [Event.warnMissingFields "B"] :=
  c1_missing_field_halts envOK [acctA] { acctA with name := "B", user := "" }
    [{ acctA with name := "C" }] (by decide) (by decide)

/-- C3: when every controller start succeeds, a per-type dispatch loop
starts exactly the configured devices whose cloud device exists and whose
`displayMode` is positive, in configuration order; every other device is
silently skipped — no controller, no error event. -/
theorem c3_dispatch_guard (env : CloudEnv) (t : DevType) (n : String)
    (devs : List CloudDevice) (dri : Int) (ds : List DeviceConfig)
    (hok : ∀ d ∈ ds, env.startOk t n d.id = true) :
    dispatchType env t n devs dri ds =
      (ds.filter fun d => (devs.any fun c => c.DeviceID == d.id) && displayEnabled d).map
        fun d => Event.deviceStart t n d.id dri :=
  dispatchType_all_ok env t n devs dri ds hok

/-- C3 (witness): cloud reports devices 1 and 2; configured devices are
device 1 (enabled, present), device 2 with `displayMode = 0`, and device 9
(absent from the cloud): exactly one controller starts, for device 1. -/
theorem c3_witness :
    dispatchType envOK DevType.ata "A" [{ DeviceID := 1 }, { DeviceID := 2 }] 5000
        [dev1, devDisabled, devAbsent] =
      [Event.deviceStart DevType.ata "A" 1 5000] := by
  have h := c3_dispatch_guard envOK DevType.ata "A" [{ DeviceID := 1 }, { DeviceID := 2 }] 5000
    [dev1, devDisabled, devAbsent] (fun d _ => rfl)
  exact h.trans (by decide)

/-- C5 (counterexample): with `refreshInterval = -1` the scheduler timer is
started with `-1000` ms, not the 120000 ms default the claim promises for
any non-positive configured value. -/
theorem c5_counterexample :
    Event.schedulerStart "A" "checkDevicesList" (-1000) ∈ runHandler envOK [acctNeg] ∧
      Event.schedulerStart "A" "checkDevicesList" 120000 ∉ runHandler envOK [acctNeg] :=
  ⟨by decide, by decide⟩

/-- C5 (amended): the scheduler timer uses `refreshInterval * 1000`, with
the 120000 ms default exactly when the value is unset or zero (a negative
value is kept, giving a negative sampling); every controller receives
`deviceRefreshInterval * 1000`, defaulting to 5000 ms when unset or zero. -/
theorem c5_intervals (env : CloudEnv) (names : List String) (a : AccountConfig)
    (resp : ConnectResponse) (devs : List CloudDevice)
    (hval : missingMandatory a = false)
    (hdup : names.contains a.name = false)
    (hconn : env.connect a.name = Except.ok resp)
    (hdev : env.listDevices a.name = Except.ok devs) :
    Event.schedulerStart a.name "checkDevicesList"
        (match a.refreshInterval with
          | none => 120000
          | some s => if s = 0 then 120000 else s * 1000) ∈ (processAccount env names a).1 ∧
      ∀ t m i dri, Event.deviceStart t m i dri ∈ (processAccount env names a).1 →
        dri = (match a.deviceRefreshInterval with
          | none => 5000
          | some s => if s = 0 then 5000 else s * 1000) := by
  rw [processAccount_ok_trace env names a resp devs hval hdup hconn hdev]
  constructor
  · rw [← toMs_eq]
    simp
  · intro t m i dri hmem
    rw [← toMs_eq]
    simp only [List.mem_append] at hmem
    rcases hmem with (((hd | hd) | hd) | hd) | hd
    · revert hd
      cases henb : a.enableDebugMode <;> simp [debugEvents, henb]
    · simp at hd
    · exact (deviceStart_mem_dispatchType env _ _ _ _ _ _ _ _ _ hd).2.2
    · exact (deviceStart_mem_dispatchType env _ _ _ _ _ _ _ _ _ hd).2.2
    · exact (deviceStart_mem_dispatchType env _ _ _ _ _ _ _ _ _ hd).2.2

/-- C5 (witness): an account with both intervals unset gets the 120000 ms
and 5000 ms defaults. -/
theorem c5_witness :
    Event.schedulerStart "A" "checkDevicesList" 120000 ∈
        (processAccount envOK [] acctA).1 ∧
      ∀ t m i dri, Event.deviceStart t m i dri ∈ (processAccount envOK [] acctA).1 →
        dri = 5000 := by
  have h := c5_intervals envOK [] acctA { contextKey := 7, useFahrenheit := false }
    [{ DeviceID := 1 }, { DeviceID := 2 }] (by decide) (by decide) rfl rfl
  exact h

/-- C7: the startup trace dispatches controllers once, from the initial
discovery snapshot; any number of subsequent `checkDevicesList` refresh
ticks (modelled from the spec, since `src/melcloud.js` is not in the
sources) only replace the registry's stored device list and leave the set
of started controllers exactly as startup left it. -/
theorem c7_refresh_no_redispatch (env : CloudEnv) (a : AccountConfig)
    (ticks : List (Except CloudErr (List CloudDevice))) :
    (applyTicks (postStartupState env a) ticks).started =
      startedDevices (processAccount env [] a).1 := by
  rw [applyTicks_started]
  rfl

/-- C2 (counterexample): account "A" has two ATA devices, both enabled and
present on the cloud; device 1's controller start throws.  Device 2 is not
started — the `catch` wraps the whole ATA loop — although it starts fine
when it is the only configured device. -/
theorem c2_counterexample :
    (DevType.ata, "A", 2) ∉ startedDevices (runHandler envFail1 [acctTwoAta]) ∧
      Event.typeLoopError DevType.ata "A" ∈ runHandler envFail1 [acctTwoAta] ∧
      (DevType.ata, "A", 2) ∈
        startedDevices (runHandler envFail1 [{ acctTwoAta with ataDevices := [dev2] }]) :=
  ⟨by decide, by decide, by decide⟩

/-- C2 (amended): when a controller's construction or start throws, the
failure is caught at the surrounding per-type loop and logged as one
type-level error; same-type devices earlier in the configuration keep
their events, same-type devices after the failing one are not started, and
the remaining type loops still run. -/
theorem c2_type_loop_aborts (env : CloudEnv) (names : List String) (a : AccountConfig)
    (resp : ConnectResponse) (devs : List CloudDevice)
    (pre post : List DeviceConfig) (d : DeviceConfig)
    (hval : missingMandatory a = false)
    (hdup : names.contains a.name = false)
    (hconn : env.connect a.name = Except.ok resp)
    (hdev : env.listDevices a.name = Except.ok devs)
    (hata : a.ataDevices = pre ++ d :: post)
    (hok : ∀ d' ∈ pre, env.startOk DevType.ata a.name d'.id = true)
    (hpres : (devs.any fun c => c.DeviceID == d.id) = true)
    (hen : displayEnabled d = true)
    (hfail : env.startOk DevType.ata a.name d.id = false) :
    (processAccount env names a).1 =
      debugEvents a ++
        [Event.connectOk a.name, Event.devicesListOk a.name,
          Event.schedulerStart a.name "checkDevicesList" (toMs a.refreshInterval 120000)] ++
        (dispatchType env DevType.ata a.name devs (toMs a.deviceRefreshInterval 5000) pre ++
          [Event.typeLoopError DevType.ata a.name]) ++
        dispatchType env DevType.atw a.name devs (toMs a.deviceRefreshInterval 5000) a.atwDevices ++
        dispatchType env DevType.erv a.name devs (toMs a.deviceRefreshInterval 5000) a.ervDevices := by
  rw [processAccount_ok_trace env names a resp devs hval hdup hconn hdev, hata,
    dispatchType_abort env DevType.ata a.name devs _ pre post d hok hpres hen hfail]

/-- C2 (witness): account with ATA devices 1 and 2 where device 1's start
throws: the run shows connect, discovery, scheduler start and the single
ATA error, with no device started. -/
theorem c2_witness :
    (processAccount envFail1 [] acctTwoAta).1 =
      [Event.connectOk "A", Event.devicesListOk "A",
        Event.schedulerStart "A" "checkDevicesList" 120000,
        Event.typeLoopError DevType.ata "A"] := by
  have h := c2_type_loop_aborts envFail1 [] acctTwoAta
    { contextKey := 7, useFahrenheit := false } [{ DeviceID := 1 }, { DeviceID := 2 }]
    [] [dev2] dev1 (by decide) rfl rfl rfl rfl
    (by intro d' hd'; simp at hd') (by decide) (by decide) (by decide)
  exact h.trans (by decide)

/-- C4: account A passes validation but its `connect` (or initial device
discovery) throws, while account B succeeds: the run is A's error trace
followed by B's full normal trace — A contributes zero started devices and
one account-level error, and B connects, discovers and dispatches exactly
as it would on its own. -/
theorem c4_failure_isolation (env : CloudEnv) (a b : AccountConfig)
    (rb : ConnectResponse) (devsB : List CloudDevice)
    (hvalA : missingMandatory a = false)
    (hvalB : missingMandatory b = false)
    (hne : b.name ≠ a.name)
    (hfailA : (∃ e, env.connect a.name = Except.error e) ∨
      ∃ r e, env.connect a.name = Except.ok r ∧ env.listDevices a.name = Except.error e)
    (hconnB : env.connect b.name = Except.ok rb)
    (hdevB : env.listDevices b.name = Except.ok devsB) :
    runHandler env [a, b] =
        (processAccount env [] a).1 ++ (processAccount env [a.name] b).1 ∧
      startedDevices (processAccount env [] a).1 = [] ∧
      Event.accountError a.name ∈ (processAccount env [] a).1 ∧
      (processAccount env [a.name] b).1 =
        debugEvents b ++
          [Event.connectOk b.name, Event.devicesListOk b.name,
            Event.schedulerStart b.name "checkDevicesList" (toMs b.refreshInterval 120000)] ++
          dispatchType env DevType.ata b.name devsB (toMs b.deviceRefreshInterval 5000) b.ataDevices ++
          dispatchType env DevType.atw b.name devsB (toMs b.deviceRefreshInterval 5000) b.atwDevices ++
          dispatchType env DevType.erv b.name devsB (toMs b.deviceRefreshInterval 5000) b.ervDevices := by
  obtain ⟨hnamesA, hhaltA⟩ := processAccount_valid_names env [] a hvalA rfl
  have hdupB : (([] : List String) ++ [a.name]).contains b.name = false := by
    simp [hne]
  obtain ⟨hnamesB, hhaltB⟩ :=
    processAccount_valid_names env ([] ++ [a.name]) b hvalB hdupB
  refine ⟨?_, ?_, ?_, ?_⟩
  · simp only [runHandler, runList, hhaltA, Bool.false_eq_true, if_false, hnamesA]
    simp only [List.nil_append] at hhaltB ⊢
    simp [hhaltB]
  · rcases hfailA with ⟨e, he⟩ | ⟨r, e, hr, he⟩
    · rw [processAccount_connect_error env [] a e hvalA rfl he]
      simp [startedDevices_append, startedDevices_debugEvents, startedDevices]
    · rw [processAccount_list_error env [] a r e hvalA rfl hr he]
      simp [startedDevices_append, startedDevices_debugEvents, startedDevices]
  · rcases hfailA with ⟨e, he⟩ | ⟨r, e, hr, he⟩
    · rw [processAccount_connect_error env [] a e hvalA rfl he]
      simp
    · rw [processAccount_list_error env [] a r e hvalA rfl hr he]
      simp
  · have hdupB' : ([a.name] : List String).contains b.name = false := by
      simpa using hdupB
    exact processAccount_ok_trace env [a.name] b rb devsB hvalB hdupB' hconnB hdevB

/-- C4 (witness): `connect` fails for account "A" and succeeds for "B":
the run is A's error followed by B's full trace, which starts B's device. -/
theorem c4_witness :
    runHandler envAFails [acctA, acctB] =
        (processAccount envAFails [] acctA).1 ++ (processAccount envAFails ["A"] acctB).1 ∧
      startedDevices (processAccount envAFails [] acctA).1 = [] ∧
      Event.accountError "A" ∈ (processAccount envAFails [] acctA).1 := by
  have h := c4_failure_isolation envAFails acctA acctB
    { contextKey := 7, useFahrenheit := false } [{ DeviceID := 1 }, { DeviceID := 2 }]
    (by decide) (by decide) (by decide) (Or.inl ⟨CloudErr.auth, rfl⟩) rfl rfl
  exact ⟨h.1, h.2.1, h.2.2.1⟩

/-- C6 (counterexample): accounts "A", a second "A", then a valid "C".  The
duplicate is warned and the first "A" proceeds, but "C" — which connects
when it is the only account — is never processed: the `return` at line 47
exits the whole handler, so the rejection is not fatal to the duplicate
account only. -/
theorem c6_counterexample :
    Event.connectOk "C" ∉
        runHandler envOK [acctA, { acctA with passwd := "x" }, { acctA with name := "C" }] ∧
      Event.warnDuplicate "A" ∈
        runHandler envOK [acctA, { acctA with passwd := "x" }, { acctA with name := "C" }] ∧
      Event.connectOk "A" ∈
        runHandler envOK [acctA, { acctA with passwd := "x" }, { acctA with name := "C" }] ∧
      Event.connectOk "C" ∈ runHandler envOK [{ acctA with name := "C" }] :=
  ⟨by decide, by decide, by decide, by decide⟩

/-- C6 (amended): an account whose name was already taken is rejected with
a warning before any network call and contributes no devices; the accounts
processed before it — the first holder of the name included — are
unaffected, but the `return` terminates the handler, so no account
configured after the duplicate is started. -/
theorem c6_duplicate_halts (env : CloudEnv) (pre : List AccountConfig)
    (b : AccountConfig) (post : List AccountConfig)
    (hpre : (runList env [] pre).2.2 = false)
    (hvalB : missingMandatory b = false)
    (hdupB : ((runList env [] pre).2.1).contains b.name = true) :
    runHandler env (pre ++ b :: post) =
      (runList env [] pre).1 ++ [Event.warnDuplicate b.name] := by
  unfold runHandler
  rw [runList_append]
  simp only [hpre, Bool.false_eq_true, if_false]
  simp [runList, processAccount_duplicate env _ b hvalB hdupB]

/-- C6 (witness): "A", then a second "A", then "C": the run is account
"A"'s full trace followed by the duplicate warning, and nothing for "C". -/
theorem c6_witness :
    runHandler envOK [acctA, { acctA with passwd := "x" }, { acctA with name := "C" }] =
      (runList envOK [] [acctA]).1 ++ [Event.warnDuplicate "A"] :=
  c6_duplicate_halts envOK [acctA] { acctA with passwd := "x" } [{ acctA with name := "C" }]
    (by decide) (by decide) (by decide)

/-- C8: a successful account startup trace has the fixed shape: debug
events, connect, discovery, scheduler start, then an ATA segment, an ATW
segment and an ERV segment, in that order; each segment contains only
events of its own device type, and the devices started in each segment
form a subsequence of that type's configured device list (config order). -/
theorem c8_startup_order (env : CloudEnv) (names : List String) (a : AccountConfig)
    (resp : ConnectResponse) (devs : List CloudDevice)
    (hval : missingMandatory a = false)
    (hdup : names.contains a.name = false)
    (hconn : env.connect a.name = Except.ok resp)
    (hdev : env.listDevices a.name = Except.ok devs) :
    ∃ ataE atwE ervE,
      (processAccount env names a).1 =
          debugEvents a ++
            [Event.connectOk a.name, Event.devicesListOk a.name,
              Event.schedulerStart a.name "checkDevicesList" (toMs a.refreshInterval 120000)] ++
            ataE ++ atwE ++ ervE ∧
        (∀ e ∈ ataE, eventDevType e = some DevType.ata) ∧
        (∀ e ∈ atwE, eventDevType e = some DevType.atw) ∧
        (∀ e ∈ ervE, eventDevType e = some DevType.erv) ∧
        List.Sublist ((startedDevices ataE).map fun x => x.2.2) (a.ataDevices.map fun d => d.id) ∧
        List.Sublist ((startedDevices atwE).map fun x => x.2.2) (a.atwDevices.map fun d => d.id) ∧
        List.Sublist ((startedDevices ervE).map fun x => x.2.2) (a.ervDevices.map fun d => d.id) := by
  refine ⟨_, _, _, processAccount_ok_trace env names a resp devs hval hdup hconn hdev,
    eventDevType_dispatchType env DevType.ata a.name devs _ a.ataDevices,
    eventDevType_dispatchType env DevType.atw a.name devs _ a.atwDevices,
    eventDevType_dispatchType env DevType.erv a.name devs _ a.ervDevices,
    startedDevices_dispatchType_sublist env DevType.ata a.name devs _ a.ataDevices,
    startedDevices_dispatchType_sublist env DevType.atw a.name devs _ a.atwDevices,
    startedDevices_dispatchType_sublist env DevType.erv a.name devs _ a.ervDevices⟩

/-- C8 (witness): the multi-type account under the all-ok environment. -/
theorem c8_witness :
    ∃ ataE atwE ervE,
      (processAccount envOK [] acctMulti).1 =
          debugEvents acctMulti ++
            [Event.connectOk acctMulti.name, Event.devicesListOk acctMulti.name,
              Event.schedulerStart acctMulti.name "checkDevicesList"
                (toMs acctMulti.refreshInterval 120000)] ++
            ataE ++ atwE ++ ervE ∧
        (∀ e ∈ ataE, eventDevType e = some DevType.ata) ∧
        (∀ e ∈ atwE, eventDevType e = some DevType.atw) ∧
        (∀ e ∈ ervE, eventDevType e = some DevType.erv) ∧
        List.Sublist ((startedDevices ataE).map fun x => x.2.2)
          (acctMulti.ataDevices.map fun d => d.id) ∧
        List.Sublist ((startedDevices atwE).map fun x => x.2.2)
          (acctMulti.atwDevices.map fun d => d.id) ∧
        List.Sublist ((startedDevices ervE).map fun x => x.2.2)
          (acctMulti.ervDevices.map fun d => d.id) :=
  c8_startup_order envOK [] acctMulti { contextKey := 7, useFahrenheit := false }
    [{ DeviceID := 1 }, { DeviceID := 2 }] (by decide) rfl rfl rfl

/-- C9 (counterexample): two runs of a debug-enabled account differing only
in the account password value produce different debug-log output: with the
empty password the account fails the mandatory-field validation and logs no
debug payload at all, so password values do influence debug output. -/
theorem c9_counterexample :
    debugConfigs (runHandler envOK [{ acctDbg with passwd := "secret" }]) ≠
      debugConfigs (runHandler envOK [{ acctDbg with passwd := "" }]) := by
  decide

/-- C9 (amended): between any two runs that differ only in the account and
mqtt password values, with both account passwords nonempty (so validation
behaves the same), the debug-log payloads are identical; every payload has
both the account password and the mqtt password replaced by "removed". -/
theorem c9_debug_redaction (env : CloudEnv) (names : List String) (a : AccountConfig)
    (p q pm qm : String) (hp : p ≠ "") (hq : q ≠ "") :
    debugConfigs (processAccount env names
          { a with passwd := p, mqtt := { a.mqtt with passwd := pm } }).1 =
        debugConfigs (processAccount env names
          { a with passwd := q, mqtt := { a.mqtt with passwd := qm } }).1 ∧
      ∀ n d, (n, d) ∈ debugConfigs (processAccount env names
          { a with passwd := p, mqtt := { a.mqtt with passwd := pm } }).1 →
        d.passwd = "removed" ∧ d.mqtt.passwd = "removed" := by
  have hp' : (p == "") = false := beq_eq_false_iff_ne.mpr hp
  have hq' : (q == "") = false := beq_eq_false_iff_ne.mpr hq
  have hm : missingMandatory { a with passwd := p, mqtt := { a.mqtt with passwd := pm } } =
      missingMandatory { a with passwd := q, mqtt := { a.mqtt with passwd := qm } } := by
    simp [missingMandatory, hp', hq']
  constructor
  · rw [debugConfigs_processAccount, debugConfigs_processAccount, hm]
    exact rfl
  · intro n d hmem
    rw [debugConfigs_processAccount] at hmem
    split_ifs at hmem with h1 h2 h3
    · simp at hmem
    · simp at hmem
    · simp only [List.mem_singleton] at hmem
      have hd : d = debugData { a with passwd := p, mqtt := { a.mqtt with passwd := pm } } :=
        congrArg Prod.snd hmem
      exact ⟨by rw [hd]; rfl, by rw [hd]; rfl⟩
    · simp at hmem

/-- C9 (witness): the debug-enabled account with two different password
pairs. -/
theorem c9_witness :
    debugConfigs (processAccount envOK []
          { acctDbg with passwd := "p1", mqtt := { acctDbg.mqtt with passwd := "m1" } }).1 =
        debugConfigs (processAccount envOK []
          { acctDbg with passwd := "p2", mqtt := { acctDbg.mqtt with passwd := "m2" } }).1 ∧
      ∀ n d, (n, d) ∈ debugConfigs (processAccount envOK []
          { acctDbg with passwd := "p1", mqtt := { acctDbg.mqtt with passwd := "m1" } }).1 →
        d.passwd = "removed" ∧ d.mqtt.passwd = "removed" :=
  c9_debug_redaction envOK [] acctDbg "p1" "p2" "m1" "m2" (by decide) (by decide)

/-- C10: an account that passes validation reserves its name in the
process-wide list even though its `connect` then fails, so a later valid
account with the same name takes the duplicate-warning branch; an account
that fails validation reserves nothing. -/
theorem c10_name_reserved (env : CloudEnv) (names : List String) (a b : AccountConfig)
    (e : CloudErr)
    (hvalA : missingMandatory a = false)
    (hdupA : names.contains a.name = false)
    (_hconnA : env.connect a.name = Except.error e)
    (hvalB : missingMandatory b = false)
    (hname : b.name = a.name) :
    (processAccount env names a).2.1 = names ++ [a.name] ∧
      (runList env names [a, b]).1 =
        (processAccount env names a).1 ++ [Event.warnDuplicate b.name] ∧
      ∀ c : AccountConfig, missingMandatory c = true →
        (processAccount env names c).2.1 = names := by
  obtain ⟨hnames, hhalt⟩ := processAccount_valid_names env names a hvalA hdupA
  refine ⟨hnames, ?_, ?_⟩
  · have hdupB : ((processAccount env names a).2.1).contains b.name = true := by
      rw [hnames, hname]
      simp
    simp only [runList, hhalt, Bool.false_eq_true, if_false]
    rw [processAccount_duplicate env _ b hvalB hdupB]
    simp
  · intro c hc
    rw [processAccount_missing env names c hc]

/-- C10 (witness): account "A" (whose `connect` fails) and then a second
account named "A". -/
theorem c10_witness :
    (processAccount envAFails [] acctA).2.1 = [] ++ ["A"] ∧
      (runList envAFails [] [acctA, { acctA with passwd := "x" }]).1 =
        (processAccount envAFails [] acctA).1 ++ [Event.warnDuplicate "A"] ∧
      ∀ c : AccountConfig, missingMandatory c = true →
        (processAccount envAFails [] c).2.1 = [] :=
  c10_name_reserved envAFails [] acctA { acctA with passwd := "x" } CloudErr.auth
    (by decide) rfl rfl (by decide) rfl

end MelCloudControl
